/-
Verification of the raylib-project-creator configuration model and template
generation engine.

The development shallowly embeds the C sources:
  * `rpconfig.h` (LoadProjectConfigRaw, SyncProjectConfig, SyncProjectConfigRaw,
    UpdateEntryValue and the rpcProjectConfig / rpcPropertyEntry data model);
  * `rpc.c` (SetupProject, the template expansion pipeline).

Modelling conventions:
  * C strings are `String` / `List Char` without interior NUL characters.
  * Fixed-size `char[N]` buffers are idealized as unbounded zero-filled byte
    arrays: reading past the written content yields the NUL byte (`cByteAt`),
    matching the behaviour on calloc-zeroed memory; bound violations of the
    scanning loops are made observable through `categoryScanMaxAccess`.
  * Machine `int` is `Int` (values in the tool stay far from overflow); the
    C `char`-typed SDK-version fields wrap through `int8Wrap`.
  * Filesystem effects of `SetupProject` are reified as an ordered action
    trace (`FsAction`); a path `TextFormat("%s/%s/...", a, b, ...)` is
    modelled as its list of `/`-separated segments `[a, b, ...]`.
-/
import Mathlib

set_option autoImplicit false

namespace Rpc

/-! ## C byte-level primitives -/

/-- The NUL byte, read when C code scans past the written content of a
zero-initialized buffer. -/
def nulChar : Char := Char.ofNat 0

/-- Byte `i` of a zero-initialized C buffer currently holding the bytes `s`. -/
def cByteAt (s : List Char) (i : Nat) : Char := s.getD i nulChar

/-- The hand-rolled segment scanner of `LoadProjectConfigRaw`:
`for (int c = 0; c < 128; c++) { if (key[c + off] != '_') len++; else break; }`
(`fuel` starts at 128). It counts bytes before the next `'_'`, reading
straight through NUL bytes, stopped only by an underscore or the 128 cap. -/
def scanFrom (s : List Char) (off fuel : Nat) : Nat :=
  match fuel with
  | 0 => 0
  | fuel + 1 => if cByteAt s off = '_' then 0 else scanFrom s (off + 1) fuel + 1

/-- The largest buffer index the category scanning loop reads for a given key:
the loop touches indices `0..scanFrom key 0 128`, capped at 127. -/
def categoryScanMaxAccess (key : List Char) : Nat :=
  min (scanFrom key 0 128) 127

/-- The largest buffer index the platform scanning loop reads when it runs
(for PLATFORM-category keys): `key[c + categoryLen + 1]` for
`c = 0..min(platformLen, 127)`, i.e. offset `categoryLen + 1` plus the
capped platform scan length. -/
def platformScanMaxAccess (key : List Char) : Nat :=
  scanFrom key 0 128 + 1 + min (scanFrom key (scanFrom key 0 128 + 1) 128) 127

/-- Size of the `char key[64]` buffer of `rpcPropertyEntry`. -/
def keyBufferSize : Nat := 64

/-- C string obtained by `strncpy`/`memcpy`-ing at most `n` bytes from offset
`off` of `s` into a zero-initialized buffer and reading it back as a C string
(truncating at the first NUL byte). -/
def cStrFrom (s : List Char) (off n : Nat) : List Char :=
  match n with
  | 0 => []
  | n + 1 =>
    let c := cByteAt s off
    if c = nulChar then [] else c :: cStrFrom s (off + 1) n

/-- C string starting at offset `off` of buffer `s` (what `strcpy` or
`TextReplace` reads from pointer `s + off`). -/
def cStrAt (s : List Char) (off : Nat) : List Char :=
  (s.drop off).takeWhile (fun c => c ≠ nulChar)

/-- raylib `TextFindIndex(text, find)`: byte index of the first occurrence of
`pat` in `s`, or `-1` when `pat` does not occur (`strstr` semantics). -/
def textFindIndex (s pat : List Char) : Int :=
  match (List.range (s.length + 1)).find? (fun i => pat.isPrefixOf (s.drop i)) with
  | some i => (i : Int)
  | none => -1

/-- raylib `TextToInteger`: optional sign, then leading decimal digits. -/
def textToInteger (s : List Char) : Int :=
  let signAndRest : Int × List Char :=
    match s with
    | '-' :: t => (-1, t)
    | '+' :: t => (1, t)
    | t => (1, t)
  signAndRest.1 *
    ((signAndRest.2.takeWhile Char.isDigit).foldl
      (fun acc c => acc * 10 + ((c.toNat : Int) - ('0'.toNat : Int))) 0)

/-- Wrap of an `int` value stored into a C `char` field (8-bit signed). -/
def int8Wrap (v : Int) : Int := (v + 128) % 256 - 128

/-- Recursion core of raylib `TextReplace`: replace every (non-overlapping,
leftmost-first) occurrence of `pat` in `s` by `rep`.  `fuel` starts at
`s.length`; every step consumes at least one byte of `s` once `pat ≠ []`. -/
def textReplaceAux (pat rep : List Char) (fuel : Nat) (s : List Char) : List Char :=
  match fuel with
  | 0 => s
  | fuel + 1 =>
    match s with
    | [] => []
    | a :: t =>
      if pat.isPrefixOf (a :: t) then
        rep ++ textReplaceAux pat rep fuel ((a :: t).drop pat.length)
      else
        a :: textReplaceAux pat rep fuel t

/-- raylib `TextReplace(text, pat, rep)`: literal, case-sensitive replacement
of all occurrences (the tool never calls it with an empty pattern). -/
def textReplace (s pat rep : String) : String :=
  if pat.toList = [] then s
  else (textReplaceAux pat.toList rep.toList s.toList.length s.toList).asString

/-- raylib `TextJoin`: concatenate with a delimiter. -/
def textJoin (xs : List String) (sep : String) : String :=
  String.intercalate sep xs

/-- raylib `TextToLower` (ASCII lowercase). -/
def textToLower (s : String) : String :=
  (s.toList.map Char.toLower).asString

/-! ## Enumerations (C `enum` values, `int`-typed in the entry record) -/

def RPC_CAT_PROJECT : Nat := 0
def RPC_CAT_BUILD : Nat := 1
def RPC_CAT_PLATFORM : Nat := 2
def RPC_CAT_DEPLOY : Nat := 3
def RPC_CAT_IMAGERY : Nat := 4
def RPC_CAT_RAYLIB : Nat := 5

def RPC_TYPE_BOOL : Nat := 0
def RPC_TYPE_VALUE : Nat := 1
def RPC_TYPE_TEXT : Nat := 2
def RPC_TYPE_TEXT_FILE : Nat := 3
def RPC_TYPE_TEXT_PATH : Nat := 4

def RPC_PLATFORM_WINDOWS : Nat := 0
def RPC_PLATFORM_LINUX : Nat := 1
def RPC_PLATFORM_MACOS : Nat := 2
def RPC_PLATFORM_HTML5 : Nat := 3
def RPC_PLATFORM_ANDROID : Nat := 4
def RPC_PLATFORM_DRM : Nat := 5
def RPC_PLATFORM_SWITCH : Nat := 6
def RPC_PLATFORM_DREAMCAST : Nat := 7
def RPC_PLATFORM_FREEBSD : Nat := 8
def RPC_PLATFORM_ANY : Nat := 9

/-! ## Raw entry data model -/

/-- One value as delivered by the `rini` collaborator library to
`LoadProjectConfigRaw`: `config.values[i]` with its key, textual payload,
description, and the was-the-value-quoted flag `isText`. -/
structure RiniValue where
  key : String := ""
  text : String := ""
  desc : String := ""
  isText : Bool := false
  deriving Repr, DecidableEq

/-- Model of `rpcPropertyEntry` of `rpconfig.h` (transient `editMode` omitted). -/
structure RpcPropertyEntry where
  key : String := ""
  text : String := ""
  desc : String := ""
  name : String := ""
  category : Nat := 0
  platform : Nat := 0
  type : Nat := 0
  value : Int := 0
  deriving Repr, DecidableEq

/-- The platform if-chain of `LoadProjectConfigRaw` (the entry's platform was
pre-set to `RPC_PLATFORM_ANY`; an unmatched segment leaves it there). -/
def platTable (s : List Char) : Nat :=
  if s = "WINDOWS".toList then RPC_PLATFORM_WINDOWS
  else if s = "LINUX".toList then RPC_PLATFORM_LINUX
  else if s = "MACOS".toList then RPC_PLATFORM_MACOS
  else if s = "HTML5".toList then RPC_PLATFORM_HTML5
  else if s = "ANDROID".toList then RPC_PLATFORM_ANDROID
  else if s = "DRM".toList then RPC_PLATFORM_DRM
  else if s = "SWITCH".toList then RPC_PLATFORM_SWITCH
  else if s = "DREAMCAST".toList then RPC_PLATFORM_DREAMCAST
  else if s = "FREEBSD".toList then RPC_PLATFORM_FREEBSD
  else RPC_PLATFORM_ANY

/-- First pass of `LoadProjectConfigRaw` on one key: extract
`(category, platform, name)`.
  * `categoryLen` is the scanner result; `strncpy(category, key, categoryLen)`
    into the zeroed `char category[32]` reads back as `cStrFrom key 0 categoryLen`.
  * The default display name is `TextReplace(key + categoryLen + 1, "_", " ")`
    (a single-character replace, i.e. a byte map over the C string at that
    offset).
  * The category field is calloc-zero-initialized, so an unmatched category
    string leaves it at `0 = RPC_CAT_PROJECT`; the platform field was pre-set
    to `RPC_PLATFORM_ANY` and only the PLATFORM branch overwrites it, using
    `memcpy(platform, key + categoryLen + 1, platformLen)` into a zeroed
    buffer and `strcpy(name, key + categoryLen + platformLen + 2)`. -/
def parseName (k : List Char) : List Char :=
  (cStrAt k (scanFrom k 0 128 + 1)).map (fun c => if c = '_' then ' ' else c)

def parseCatPlat (k : List Char) : Nat × Nat × List Char :=
  if cStrFrom k 0 (scanFrom k 0 128) = "PROJECT".toList then
    (RPC_CAT_PROJECT, RPC_PLATFORM_ANY, parseName k)
  else if cStrFrom k 0 (scanFrom k 0 128) = "BUILD".toList then
    (RPC_CAT_BUILD, RPC_PLATFORM_ANY, parseName k)
  else if cStrFrom k 0 (scanFrom k 0 128) = "PLATFORM".toList then
    (RPC_CAT_PLATFORM,
     platTable (cStrFrom k (scanFrom k 0 128 + 1) (scanFrom k (scanFrom k 0 128 + 1) 128)),
     cStrAt k (scanFrom k 0 128 + scanFrom k (scanFrom k 0 128 + 1) 128 + 2))
  else if cStrFrom k 0 (scanFrom k 0 128) = "DEPLOY".toList then
    (RPC_CAT_DEPLOY, RPC_PLATFORM_ANY, parseName k)
  else if cStrFrom k 0 (scanFrom k 0 128) = "IMAGERY".toList then
    (RPC_CAT_IMAGERY, RPC_PLATFORM_ANY, parseName k)
  else if cStrFrom k 0 (scanFrom k 0 128) = "RAYLIB".toList then
    (RPC_CAT_RAYLIB, RPC_PLATFORM_ANY, parseName k)
  else (0, RPC_PLATFORM_ANY, parseName k)

/-- Second pass of `LoadProjectConfigRaw` on one entry: derive `(type, value,
text)` from the key and the raw value.  For an unquoted value the source tests
`if (TextFindIndex(raw.entries[i].key, "_FLAG"))` — plain C truthiness, so the
branch is taken whenever the index is nonzero, including the not-found
result `-1`.  The quoted-value branches test `TextFindIndex(...) > 0`. -/
def parseTypeValue (k text : List Char) (isTextV : Bool) : Nat × Int × List Char :=
  if !isTextV then
    (if textFindIndex k "_FLAG".toList ≠ 0 then RPC_TYPE_BOOL else RPC_TYPE_VALUE,
     textToInteger text, [])
  else
    ((if textFindIndex k "_FILES".toList > 0 then RPC_TYPE_TEXT_FILE
      else if textFindIndex k "_FILE".toList > 0 then RPC_TYPE_TEXT_FILE
      else if textFindIndex k "_PATH".toList > 0 then RPC_TYPE_TEXT_PATH
      else RPC_TYPE_TEXT),
     0, text)

/-- Processing of one `rini` value by `LoadProjectConfigRaw` (the source's two
per-index loops are element-wise independent and fused here). -/
def parseEntry (v : RiniValue) : RpcPropertyEntry :=
  let catPlatName := parseCatPlat v.key.toList
  let typeValText := parseTypeValue v.key.toList v.text.toList v.isText
  { key := v.key
    text := typeValText.2.2.asString
    desc := v.desc
    name := catPlatName.2.2.asString
    category := catPlatName.1
    platform := catPlatName.2.1
    type := typeValText.1
    value := typeValText.2.1 }

/-- Model of `LoadProjectConfigRaw`, applied to the list of values delivered by
`rini_load`: one output entry per input value, no failure path. -/
def loadProjectConfigRaw (store : List RiniValue) : List RpcPropertyEntry :=
  store.map parseEntry

/-! ## Typed project configuration (`rpcProjectConfig`)

Image payloads (`rpcProjectImagery`) are omitted: no claim touches them and
they never flow through the sync functions.  The `Linux.crossCompilerPath` and
`DRM.crossCompilerPath` fields are declared `char` (a single byte) in the C
struct yet written with `strcpy`; the layout hazard is idealized away and the
field modelled as a string.  The header names the template selector
`selectedSource`; `rpc.c`'s copy of the struct calls it `selectedTemplate`,
the name used by `SetupProject` and kept here. -/

structure ProjectCfg where
  commercialName : String := ""
  repoName : String := ""
  internalName : String := ""
  shortName : String := ""
  year : Int := 0
  version : String := ""
  description : String := ""
  publisherName : String := ""
  developerName : String := ""
  developerUrl : String := ""
  developerEmail : String := ""
  iconFile : String := ""
  sourcePath : String := ""
  assetsPath : String := ""
  assetsOutPath : String := ""
  sourceFilePaths : List String := []
  selectedTemplate : Nat := 0
  generationOutPath : String := ""
  deriving Repr, DecidableEq

structure BuildCfg where
  outputPath : String := ""
  assetsValidation : Bool := false
  assetsPackaging : Bool := false
  rrpPackagerPath : String := ""
  requestedBuildSystems : List Bool := [false, false, false, false, false, false]
  targetPlatform : String := ""
  targetArchitecture : String := ""
  targetMode : String := ""
  deriving Repr, DecidableEq

structure WindowsCfg where
  msbuildPath : String := ""
  w64devkitPath : String := ""
  signtoolPath : String := ""
  signCertFile : String := ""
  deriving Repr, DecidableEq

structure LinuxCfg where
  useCrossCompiler : Bool := false
  crossCompilerPath : String := ""
  deriving Repr, DecidableEq

structure MacOSCfg where
  bundleInfoFile : String := ""
  bundleName : String := ""
  bundleVersion : String := ""
  bundleIconFile : String := ""
  deriving Repr, DecidableEq

structure HTML5Cfg where
  emsdkPath : String := ""
  shellFile : String := ""
  heapMemorySize : Int := 0
  useAsincify : Bool := false
  useWebGL2 : Bool := false
  deriving Repr, DecidableEq

structure AndroidCfg where
  sdkPath : String := ""
  ndkPath : String := ""
  javaSdkPath : String := ""
  manifestFile : String := ""
  minSdkVersion : Int := 0
  targetSdkVersion : Int := 0
  deriving Repr, DecidableEq

structure DRMCfg where
  useCrossCompiler : Bool := false
  crossCompilerPath : String := ""
  deriving Repr, DecidableEq

structure DreamcastCfg where
  sdkPath : String := ""
  deriving Repr, DecidableEq

structure PlatformCfg where
  Windows : WindowsCfg := {}
  Linux : LinuxCfg := {}
  macOS : MacOSCfg := {}
  HTML5 : HTML5Cfg := {}
  Android : AndroidCfg := {}
  DRM : DRMCfg := {}
  Dreamcast : DreamcastCfg := {}
  deriving Repr, DecidableEq

structure DeployCfg where
  zipPackage : Bool := false
  rifInstaller : Bool := false
  rifInstallerPath : String := ""
  includeREADME : Bool := false
  readmePath : String := ""
  includeEULA : Bool := false
  eulaPath : String := ""
  deriving Repr, DecidableEq

structure ImageryCfg where
  logoFile : String := ""
  splashFile : String := ""
  genImageryAuto : Bool := false
  deriving Repr, DecidableEq

structure RaylibCfg where
  srcPath : String := ""
  version : String := ""
  glVersion : String := ""
  deriving Repr, DecidableEq

/-- Model of `rpcProjectConfig`. -/
structure RpcProjectConfig where
  Project : ProjectCfg := {}
  Build : BuildCfg := {}
  Platform : PlatformCfg := {}
  Deploy : DeployCfg := {}
  Imagery : ImageryCfg := {}
  raylib : RaylibCfg := {}
  deriving Repr, DecidableEq

/-- C `bool`-to-`int` conversion used when a flag is handed to
`UpdateEntryValue` or compared against an entry value. -/
def boolToInt (b : Bool) : Int := if b then 1 else 0

/-- C `int`-to-`bool` conversion (`dst->flag = src.entries[i].value`). -/
def intToBool (v : Int) : Bool := v ≠ 0

/-- Model of `UpdateEntryValue`: refresh both the integer value and its stringified
text (`TextFormat("%i", value)`). -/
def UpdateEntryValue (e : RpcPropertyEntry) (v : Int) : RpcPropertyEntry :=
  { e with value := v, text := toString v }

/-- One step of `SyncProjectConfig` (ProjectConfigRaw → ProjectConfig): fold
the entry into the destination config.  Two source lines use a C comma
operator where an assignment was evidently intended and therefore change
nothing:
  `PLATFORM_HTML5_FLAG_USE_WEBGL2`: `dst->Platform.HTML5.useWebGL2, src.entries[i].value;`
  `DEPLOY_FLAG_INCUDE_README`:      `dst->Deploy.includeREADME, src.entries[i].value;`
The `char`-typed Android SDK version fields truncate through `int8Wrap`. -/
def applyEntry (dst : RpcProjectConfig) (e : RpcPropertyEntry) : RpcProjectConfig :=
  match e.key with
  | "PROJECT_INTERNAL_NAME" => { dst with Project.internalName := e.text }
  | "PROJECT_REPO_NAME" => { dst with Project.repoName := e.text }
  | "PROJECT_COMMERCIAL_NAME" => { dst with Project.commercialName := e.text }
  | "PROJECT_SHORT_NAME" => { dst with Project.shortName := e.text }
  | "PROJECT_VERSION" => { dst with Project.version := e.text }
  | "PROJECT_DESCRIPTION" => { dst with Project.description := e.text }
  | "PROJECT_PUBLISHER_NAME" => { dst with Project.publisherName := e.text }
  | "PROJECT_DEVELOPER_NAME" => { dst with Project.developerName := e.text }
  | "PROJECT_DEVELOPER_URL" => { dst with Project.developerUrl := e.text }
  | "PROJECT_DEVELOPER_EMAIL" => { dst with Project.developerEmail := e.text }
  | "PROJECT_ICON_FILE" => { dst with Project.iconFile := e.text }
  | "PROJECT_SOURCE_PATH" => { dst with Project.sourcePath := e.text }
  | "PROJECT_ASSETS_PATH" => { dst with Project.assetsPath := e.text }
  | "PROJECT_ASSETS_OUTPUT_PATH" => { dst with Project.assetsOutPath := e.text }
  | "RAYLIB_SRC_PATH" => { dst with raylib.srcPath := e.text }
  | "RAYLIB_OPENGL_VERSION" => { dst with raylib.glVersion := e.text }
  | "BUILD_OUTPUT_PATH" => { dst with Build.outputPath := e.text }
  | "BUILD_TARGET_PLATFORM" => { dst with Build.targetPlatform := e.text }
  | "BUILD_TARGET_ARCHITECTURE" => { dst with Build.targetArchitecture := e.text }
  | "BUILD_TARGET_MODE" => { dst with Build.targetMode := e.text }
  | "BUILD_FLAG_ASSETS_VALIDATION" => { dst with Build.assetsValidation := intToBool e.value }
  | "BUILD_FLAG_ASSETS_PACKAGING" => { dst with Build.assetsPackaging := intToBool e.value }
  | "PLATFORM_WINDOWS_MSBUILD_PATH" => { dst with Platform.Windows.msbuildPath := e.text }
  | "PLATFORM_WINDOWS_W64DEVKIT_PATH" => { dst with Platform.Windows.w64devkitPath := e.text }
  | "PLATFORM_WINDOWS_SIGNTOOL_PATH" => { dst with Platform.Windows.signtoolPath := e.text }
  | "PLATFORM_WINDOWS_SIGNCERT_FILE" => { dst with Platform.Windows.signCertFile := e.text }
  | "PLATFORM_LINUX_FLAG_CROSS_COMPILE" => { dst with Platform.Linux.useCrossCompiler := intToBool e.value }
  | "PLATFORM_LINUX_CROSS_COMPILER_PATH" => { dst with Platform.Linux.crossCompilerPath := e.text }
  | "PLATFORM_MACOS_BUNDLE_INFO_FILE" => { dst with Platform.macOS.bundleInfoFile := e.text }
  | "PLATFORM_MACOS_BUNDLE_NAME" => { dst with Platform.macOS.bundleName := e.text }
  | "PLATFORM_MACOS_BUNDLE_VERSION" => { dst with Platform.macOS.bundleVersion := e.text }
  | "PLATFORM_HTML5_EMSDK_PATH" => { dst with Platform.HTML5.emsdkPath := e.text }
  | "PLATFORM_HTML5_SHELL_FILE" => { dst with Platform.HTML5.shellFile := e.text }
  | "PLATFORM_HTML5_HEAP_MEMORY_SIZE" => { dst with Platform.HTML5.heapMemorySize := e.value }
  | "PLATFORM_HTML5_FLAG_USE_ASINCIFY" => { dst with Platform.HTML5.useAsincify := intToBool e.value }
  | "PLATFORM_HTML5_FLAG_USE_WEBGL2" => dst
  | "PLATFORM_ANDROID_SDK_PATH" => { dst with Platform.Android.sdkPath := e.text }
  | "PLATFORM_ANDROID_NDK_PATH" => { dst with Platform.Android.ndkPath := e.text }
  | "PLATFORM_ANDROID_JAVA_SDK_PATH" => { dst with Platform.Android.javaSdkPath := e.text }
  | "PLATFORM_ANDROID_MANIFEST_FILE" => { dst with Platform.Android.manifestFile := e.text }
  | "PLATFORM_ANDROID_MIN_SDK_VERSION" => { dst with Platform.Android.minSdkVersion := int8Wrap e.value }
  | "PLATFORM_ANDROID_TARGET_SDK_VERSION" => { dst with Platform.Android.targetSdkVersion := int8Wrap e.value }
  | "PLATFORM_DRM_FLAG_CROSS_COMPILE" => { dst with Platform.DRM.useCrossCompiler := intToBool e.value }
  | "PLATFORM_DRM_CROSS_COMPILER_PATH" => { dst with Platform.DRM.crossCompilerPath := e.text }
  | "PLATFORM_DREAMCAST_SDK_PATH" => { dst with Platform.Dreamcast.sdkPath := e.text }
  | "DEPLOY_FLAG_ZIP_PACKAGE" => { dst with Deploy.zipPackage := intToBool e.value }
  | "DEPLOY_FLAG_RIF_INSTALLER" => { dst with Deploy.rifInstaller := intToBool e.value }
  | "DEPLOY_RIF_INSTALLER_PATH" => { dst with Deploy.rifInstallerPath := e.text }
  | "DEPLOY_FLAG_INCUDE_README" => dst
  | "DEPLOY_README_FILE" => { dst with Deploy.readmePath := e.text }
  | "DEPLOY_FLAG_INCUDE_EULA" => { dst with Deploy.includeEULA := intToBool e.value }
  | "DEPLOY_EULA_FILE" => { dst with Deploy.eulaPath := e.text }
  | "IMAGERY_LOGO_FILE" => { dst with Imagery.logoFile := e.text }
  | "IMAGERY_SPLASH_FILE" => { dst with Imagery.splashFile := e.text }
  | "IMAGERY_FLAG_GENERATE" => { dst with Imagery.genImageryAuto := intToBool e.value }
  | _ => dst

/-- Model of `SyncProjectConfig` (ProjectConfigRaw → ProjectConfig): iterate
`applyEntry` over the store in order. -/
def syncProjectConfig (src : List RpcPropertyEntry) (dst : RpcProjectConfig) :
    RpcProjectConfig :=
  src.foldl applyEntry dst

/-- One step of `SyncProjectConfigRaw` (ProjectConfig → ProjectConfigRaw):
overwrite a recognized entry's text (or value+text via `UpdateEntryValue`)
from the config; unrecognized keys pass through untouched. -/
def syncEntry (src : RpcProjectConfig) (e : RpcPropertyEntry) : RpcPropertyEntry :=
  match e.key with
  | "PROJECT_INTERNAL_NAME" => { e with text := src.Project.internalName }
  | "PROJECT_REPO_NAME" => { e with text := src.Project.repoName }
  | "PROJECT_COMMERCIAL_NAME" => { e with text := src.Project.commercialName }
  | "PROJECT_SHORT_NAME" => { e with text := src.Project.shortName }
  | "PROJECT_VERSION" => { e with text := src.Project.version }
  | "PROJECT_DESCRIPTION" => { e with text := src.Project.description }
  | "PROJECT_PUBLISHER_NAME" => { e with text := src.Project.publisherName }
  | "PROJECT_DEVELOPER_NAME" => { e with text := src.Project.developerName }
  | "PROJECT_DEVELOPER_URL" => { e with text := src.Project.developerUrl }
  | "PROJECT_DEVELOPER_EMAIL" => { e with text := src.Project.developerEmail }
  | "PROJECT_ICON_FILE" => { e with text := src.Project.iconFile }
  | "PROJECT_SOURCE_PATH" => { e with text := src.Project.sourcePath }
  | "PROJECT_ASSETS_PATH" => { e with text := src.Project.assetsPath }
  | "PROJECT_ASSETS_OUTPUT_PATH" => { e with text := src.Project.assetsOutPath }
  | "RAYLIB_SRC_PATH" => { e with text := src.raylib.srcPath }
  | "RAYLIB_OPENGL_VERSION" => { e with text := src.raylib.glVersion }
  | "BUILD_OUTPUT_PATH" => { e with text := src.Build.outputPath }
  | "BUILD_TARGET_PLATFORM" => { e with text := src.Build.targetPlatform }
  | "BUILD_TARGET_ARCHITECTURE" => { e with text := src.Build.targetArchitecture }
  | "BUILD_TARGET_MODE" => { e with text := src.Build.targetMode }
  | "BUILD_FLAG_ASSETS_VALIDATION" => UpdateEntryValue e (boolToInt src.Build.assetsValidation)
  | "BUILD_FLAG_ASSETS_PACKAGING" => UpdateEntryValue e (boolToInt src.Build.assetsPackaging)
  | "PLATFORM_WINDOWS_MSBUILD_PATH" => { e with text := src.Platform.Windows.msbuildPath }
  | "PLATFORM_WINDOWS_W64DEVKIT_PATH" => { e with text := src.Platform.Windows.w64devkitPath }
  | "PLATFORM_WINDOWS_SIGNTOOL_PATH" => { e with text := src.Platform.Windows.signtoolPath }
  | "PLATFORM_WINDOWS_SIGNCERT_FILE" => { e with text := src.Platform.Windows.signCertFile }
  | "PLATFORM_LINUX_FLAG_CROSS_COMPILE" => UpdateEntryValue e (boolToInt src.Platform.Linux.useCrossCompiler)
  | "PLATFORM_LINUX_CROSS_COMPILER_PATH" => { e with text := src.Platform.Linux.crossCompilerPath }
  | "PLATFORM_MACOS_BUNDLE_INFO_FILE" => { e with text := src.Platform.macOS.bundleInfoFile }
  | "PLATFORM_MACOS_BUNDLE_NAME" => { e with text := src.Platform.macOS.bundleName }
  | "PLATFORM_MACOS_BUNDLE_VERSION" => { e with text := src.Platform.macOS.bundleVersion }
  | "PLATFORM_HTML5_EMSDK_PATH" => { e with text := src.Platform.HTML5.emsdkPath }
  | "PLATFORM_HTML5_SHELL_FILE" => { e with text := src.Platform.HTML5.shellFile }
  | "PLATFORM_HTML5_HEAP_MEMORY_SIZE" => UpdateEntryValue e src.Platform.HTML5.heapMemorySize
  | "PLATFORM_HTML5_FLAG_USE_ASINCIFY" => UpdateEntryValue e (boolToInt src.Platform.HTML5.useAsincify)
  | "PLATFORM_HTML5_FLAG_USE_WEBGL2" => UpdateEntryValue e (boolToInt src.Platform.HTML5.useWebGL2)
  | "PLATFORM_ANDROID_SDK_PATH" => { e with text := src.Platform.Android.sdkPath }
  | "PLATFORM_ANDROID_NDK_PATH" => { e with text := src.Platform.Android.ndkPath }
  | "PLATFORM_ANDROID_JAVA_SDK_PATH" => { e with text := src.Platform.Android.javaSdkPath }
  | "PLATFORM_ANDROID_MANIFEST_FILE" => { e with text := src.Platform.Android.manifestFile }
  | "PLATFORM_ANDROID_MIN_SDK_VERSION" => UpdateEntryValue e src.Platform.Android.minSdkVersion
  | "PLATFORM_ANDROID_TARGET_SDK_VERSION" => UpdateEntryValue e src.Platform.Android.targetSdkVersion
  | "PLATFORM_DRM_FLAG_CROSS_COMPILE" => UpdateEntryValue e (boolToInt src.Platform.DRM.useCrossCompiler)
  | "PLATFORM_DRM_CROSS_COMPILER_PATH" => { e with text := src.Platform.DRM.crossCompilerPath }
  | "PLATFORM_DREAMCAST_SDK_PATH" => { e with text := src.Platform.Dreamcast.sdkPath }
  | "DEPLOY_FLAG_ZIP_PACKAGE" => UpdateEntryValue e (boolToInt src.Deploy.zipPackage)
  | "DEPLOY_FLAG_RIF_INSTALLER" => UpdateEntryValue e (boolToInt src.Deploy.rifInstaller)
  | "DEPLOY_RIF_INSTALLER_PATH" => { e with text := src.Deploy.rifInstallerPath }
  | "DEPLOY_FLAG_INCUDE_README" => UpdateEntryValue e (boolToInt src.Deploy.includeREADME)
  | "DEPLOY_README_FILE" => { e with text := src.Deploy.readmePath }
  | "DEPLOY_FLAG_INCUDE_EULA" => UpdateEntryValue e (boolToInt src.Deploy.includeEULA)
  | "DEPLOY_EULA_FILE" => { e with text := src.Deploy.eulaPath }
  | "IMAGERY_LOGO_FILE" => { e with text := src.Imagery.logoFile }
  | "IMAGERY_SPLASH_FILE" => { e with text := src.Imagery.splashFile }
  | "IMAGERY_FLAG_GENERATE" => UpdateEntryValue e (boolToInt src.Imagery.genImageryAuto)
  | _ => e

/-- Model of `SyncProjectConfigRaw` (ProjectConfig → ProjectConfigRaw): overwrite each
matching store entry in place from the config. -/
def syncProjectConfigRaw (src : RpcProjectConfig) (dst : List RpcPropertyEntry) :
    List RpcPropertyEntry :=
  dst.map (syncEntry src)

/-! ## Template expansion (`SetupProject` of `rpc.c`)

Filesystem effects are reified as an ordered trace of actions.  A C path
built by `TextFormat("%s/%s/...", a, b, ...)` is modelled as its list of
`/`-separated pieces `[a, b, ...]`; the template root string (the tool's
`<application-directory>/template`) is the opaque head segment `tmpl`, and
`tread` returns the text content of a template file, by path. -/

/-- A filesystem effect of `SetupProject`, in program order. -/
inductive FsAction where
  | mkdir (path : List String)
  | copy (src dst : List String)
  | write (path : List String) (content : String)
  deriving Repr, DecidableEq

/-- The output path an action creates (for `copy`, the destination). -/
def FsAction.outPath : FsAction → List String
  | .mkdir p => p
  | .copy _ dst => dst
  | .write p _ => p

/-- Does the action produce a file (as opposed to a directory)? -/
def FsAction.isFileOutput : FsAction → Bool
  | .mkdir _ => false
  | .copy _ _ => true
  | .write _ _ => true

/-- raylib `GetFileName`: the path component after the last separator. -/
def getFileName (p : String) : String :=
  ((p.toList.reverse.takeWhile (fun c => c ≠ '/')).reverse).asString

/-- raylib `IsFileExtension(path, ".c")`: `GetFileExtension` takes the part
from the last dot (`NULL`, hence `false`, when there is no dot), lowercased
and compared with the requested extension. -/
def isCFile (p : String) : Bool :=
  if ('.' : Char) ∈ p.toList then
    (('.' :: (p.toList.reverse.takeWhile (fun c => c ≠ '.')).reverse).map Char.toLower)
      = ".c".toList
  else false

/-- Template root existence checks performed before any output is produced
(`DirectoryExists`/`FileExists` at the head of `SetupProject`). -/
structure TemplateCheck where
  rootExists : Bool := true
  srcExists : Bool := true
  projectsExists : Bool := true
  rpcSeedExists : Bool := true
  deriving Repr, DecidableEq

/-- Resolution of the repository name: a blank `repoName` defaults to
`internalName` (`if (config->Project.repoName[0] == '\0') strcpy(...)`). -/
def resolvedRepoName (cfg : RpcProjectConfig) : String :=
  if cfg.Project.repoName = "" then cfg.Project.internalName else cfg.Project.repoName

/-- Build-system request flag `i` (`config->Build.requestedBuildSystems[i]`). -/
def buildFlag (cfg : RpcProjectConfig) (i : Nat) : Bool :=
  cfg.Build.requestedBuildSystems.getD i false

/-- The `.c` file names extracted from the user-provided source list:
`GetFileName` of every path with a `.c` extension, in order. -/
def codeFileNames (cfg : RpcProjectConfig) : List String :=
  (cfg.Project.sourceFilePaths.filter isCFile).map getFileName

/-- Replacement of the `project_name.c` placeholder by the selected source
set (used on `src/Makefile` and on VSCode `tasks.json`):
template 0 substitutes the single renamed file, template 1 the six
screen-manager files, template 2 the space-joined (`TextJoin`) user file
names.  Any other selector leaves `fileTextUpdated[0]` NULL in the source;
that buffer feeds only a discarded chain link, modelled as `""`. -/
def sourcesReplacedText (cfg : RpcProjectConfig) (fileText : String) : String :=
  let internal := cfg.Project.internalName
  if cfg.Project.selectedTemplate = 0 then
    textReplace fileText "project_name.c" (internal ++ ".c")
  else if cfg.Project.selectedTemplate = 1 then
    textReplace fileText "project_name.c"
      (internal ++ ".c screen_logo.c screen_title.c screen_options.c screen_gameplay.c screen_ending.c")
  else if cfg.Project.selectedTemplate = 2 then
    textReplace fileText "project_name.c" (textJoin (codeFileNames cfg) " ")
  else ""

/-- Step: create the source output directory and copy the selected project
source file(s) (`SetupProject`, source-strategy dispatch). -/
def srcCopyActs (cfg : RpcProjectConfig) (tmpl : String) : List FsAction :=
  let out := cfg.Project.generationOutPath
  let repo := resolvedRepoName cfg
  let internal := cfg.Project.internalName
  FsAction.mkdir [out, repo, "src", "external"] ::
  (if cfg.Project.selectedTemplate = 0 then
    [FsAction.copy [tmpl, "src", "project_name.c"] [out, repo, "src", internal ++ ".c"]]
  else if cfg.Project.selectedTemplate = 1 then
    [FsAction.copy [tmpl, "src", "raylib_advanced.c"] [out, repo, "src", internal ++ ".c"],
     FsAction.copy [tmpl, "src", "screens.h"] [out, repo, "src", "screens.h"],
     FsAction.copy [tmpl, "src", "screen_logo.c"] [out, repo, "src", "screen_logo.c"],
     FsAction.copy [tmpl, "src", "screen_title.c"] [out, repo, "src", "screen_title.c"],
     FsAction.copy [tmpl, "src", "screen_options.c"] [out, repo, "src", "screen_options.c"],
     FsAction.copy [tmpl, "src", "screen_gameplay.c"] [out, repo, "src", "screen_gameplay.c"],
     FsAction.copy [tmpl, "src", "screen_ending.c"] [out, repo, "src", "screen_ending.c"]]
  else if cfg.Project.selectedTemplate = 2 then
    cfg.Project.sourceFilePaths.map (fun p =>
      FsAction.copy [p] [out, repo, "src", getFileName p])
  else [])

/-- Step: emit the project's own `.rpc` definition from the
`project_name.rpc` seed.  The chain is the source's ten `TextReplace` steps;
its last link substitutes `config->Project.developerUrl` for the
`$(DeveloperEmail)` placeholder (as written).  The output path is
`TextFormat("%s/%s.rpc", generationOutPath, internalName)` — directly under
the output root, with the internal name. -/
def rpcFileActs (cfg : RpcProjectConfig) (tmpl : String)
    (tread : List String → String) : List FsAction :=
  let out := cfg.Project.generationOutPath
  let repo := resolvedRepoName cfg
  let c0 := tread [tmpl, "project_name.rpc"]
  let c1 := textReplace c0 "$(project_name)" cfg.Project.internalName
  let c2 := textReplace c1 "$(repo-name)" repo
  let c3 := textReplace c2 "$(CommercialName)" cfg.Project.commercialName
  let c4 := textReplace c3 "$(ShortName)" cfg.Project.shortName
  let c5 := textReplace c4 "$(ProjectVersion)" cfg.Project.version
  let c6 := textReplace c5 "$(ProjectDescription)" cfg.Project.description
  let c7 := textReplace c6 "$(PublisherName)" cfg.Project.publisherName
  let c8 := textReplace c7 "$(ProjectDeveloper)" cfg.Project.developerName
  let c9 := textReplace c8 "$(DeveloperUrl)" cfg.Project.developerUrl
  let c10 := textReplace c9 "$(DeveloperEmail)" cfg.Project.developerUrl
  [FsAction.write [out, cfg.Project.internalName ++ ".rpc"] c10]

/-- Step: Script build system (`requestedBuildSystems[0]`).  The directory is
created under the *internal* name while `build.bat` is written under the
*repo* name (as in the source). -/
def scriptActs (cfg : RpcProjectConfig) (tmpl : String)
    (tread : List String → String) : List FsAction :=
  if buildFlag cfg 0 then
    let out := cfg.Project.generationOutPath
    let repo := resolvedRepoName cfg
    let c0 := tread [tmpl, "projects", "scripts", "build.bat"]
    let c1 := textReplace c0 "project_name" cfg.Project.internalName
    let c2 := textReplace c1 "ProjectDescription" cfg.Project.description
    let c3 := textReplace c2 "C:\\raylib\\w64devkit\\bin" cfg.Platform.Windows.w64devkitPath
    [FsAction.mkdir [out, cfg.Project.internalName, "projects", "scripts"],
     FsAction.write [out, repo, "projects", "scripts", "build.bat"] c3]
  else []

/-- Step: Makefile build system (`requestedBuildSystems[1]`).  The source
threads the buffers as
`u0 := replace(fileText, sources)`, `u1 := replace(fileText, name)`,
`u2 := replace(u0, w64devkit)`, `u3 := replace(u1, raylib-src)` and saves
`u3`: the chain through `u0`/`u2` (source-file substitution and w64devkit
path) is computed but discarded. -/
def makefileActs (cfg : RpcProjectConfig) (tmpl : String)
    (tread : List String → String) : List FsAction :=
  if buildFlag cfg 1 then
    let out := cfg.Project.generationOutPath
    let repo := resolvedRepoName cfg
    let fileText := tread [tmpl, "src", "Makefile"]
    let u0 := sourcesReplacedText cfg fileText
    let u1 := textReplace fileText "project_name" cfg.Project.internalName
    let _u2 := textReplace u0 "C:\\raylib\\w64devkit\\bin" cfg.Platform.Windows.w64devkitPath
    let u3 := textReplace u1 "C:/raylib/raylib/src" cfg.raylib.srcPath
    [FsAction.write [out, repo, "src", "Makefile"] u3]
  else []

/-- The `<!--Additional Compile Items-->` block substituted into the VS2022
project for the screen-manager template. -/
def vsAdvancedCompileItems : String :=
  "<ClCompile Include=\"..\\..\\..\\src\\screen_logo.c\" />\n    " ++
  "         <ClCompile Include=\"..\\..\\..\\src\\screen_title.c\" />\n    " ++
  "         <ClCompile Include=\"..\\..\\..\\src\\screen_options.c\" />\n    " ++
  "         <ClCompile Include=\"..\\..\\..\\src\\screen_gameplay.c\" />\n    " ++
  "         <ClCompile Include=\"..\\..\\..\\src\\screen_ending.c\" />\n"

/-- Step: VSCode build system (`requestedBuildSystems[2]`).  In `tasks.json`
the `u0` link holding the source-file substitution is discarded exactly as in
the Makefile step (`u1` restarts from `fileText`). -/
def vscodeActs (cfg : RpcProjectConfig) (tmpl : String)
    (tread : List String → String) : List FsAction :=
  if buildFlag cfg 2 then
    let out := cfg.Project.generationOutPath
    let repo := resolvedRepoName cfg
    let internal := cfg.Project.internalName
    let w64 := cfg.Platform.Windows.w64devkitPath
    let launch0 := tread [tmpl, "projects", "VSCode", ".vscode", "launch.json"]
    let launch := textReplace (textReplace launch0 "project_name" internal)
      "C:/raylib/w64devkit/bin" w64
    let props0 := tread [tmpl, "projects", "VSCode", ".vscode", "c_cpp_properties.json"]
    let props := textReplace (textReplace props0 "C:/raylib/raylib/src" cfg.raylib.srcPath)
      "C:/raylib/w64devkit/bin" w64
    let tasks0 := tread [tmpl, "projects", "VSCode", ".vscode", "tasks.json"]
    let _tasksU0 := sourcesReplacedText cfg tasks0
    let tasksU1 := textReplace tasks0 "project_name" internal
    let tasksU2 := textReplace tasksU1 "C:/raylib/raylib/src" cfg.raylib.srcPath
    let tasksU3 := textReplace tasksU2 "C:/raylib/w64devkit/bin" w64
    [FsAction.mkdir [out, repo, "projects", "VSCode", ".vscode"],
     FsAction.write [out, repo, "projects", "VSCode", ".vscode", "launch.json"] launch,
     FsAction.write [out, repo, "projects", "VSCode", ".vscode", "c_cpp_properties.json"] props,
     FsAction.write [out, repo, "projects", "VSCode", ".vscode", "tasks.json"] tasksU3,
     FsAction.copy [tmpl, "projects", "VSCode", ".vscode", "settings.json"]
       [out, repo, "projects", "VSCode", ".vscode", "settings.json"],
     FsAction.copy [tmpl, "projects", "VSCode", "main.code-workspace"]
       [out, repo, "projects", "VSCode", "main.code-workspace"],
     FsAction.copy [tmpl, "projects", "VSCode", "README.md"]
       [out, repo, "projects", "VSCode", "README.md"]]
  else []

/-- Per-template substitution of the VS2022 project file body (before the
shared `project_name` and raylib-source replacements). -/
def vs2022ProjectBody (cfg : RpcProjectConfig) (v : String) : String :=
  let internal := cfg.Project.internalName
  if cfg.Project.selectedTemplate = 0 then
    (textReplace (textReplace v "project_name.c" (internal ++ ".c")) "project_name" "project_name")
  else if cfg.Project.selectedTemplate = 1 then
    (textReplace (textReplace v "project_name.c" (internal ++ ".c"))
      "<!--Additional Compile Items-->" vsAdvancedCompileItems)
  else if cfg.Project.selectedTemplate = 2 then
    let names := codeFileNames cfg
    let u0 := textReplace v "project_name.c" (names.getD 0 "")
    let block := String.join (names.drop 1 |>.map (fun n =>
      "<ClCompile Include=\"..\\..\\..\\src\\" ++ n ++ "\" />\n    "))
    textReplace u0 "<!--Additional Compile Items-->" block
  else ""

/-- Step: VS2022 build system (`requestedBuildSystems[3]`). -/
def vs2022Acts (cfg : RpcProjectConfig) (tmpl : String)
    (tread : List String → String) : List FsAction :=
  if buildFlag cfg 3 then
    let out := cfg.Project.generationOutPath
    let repo := resolvedRepoName cfg
    let internal := cfg.Project.internalName
    let rl := textReplace (tread [tmpl, "projects", "VS2022", "raylib", "raylib.vcxproj"])
      "C:\\raylib\\raylib\\src" cfg.raylib.srcPath
    let v := tread [tmpl, "projects", "VS2022", "project_name", "project_name.vcxproj"]
    let u2 := textReplace (vs2022ProjectBody cfg v) "project_name" internal
    let u3 := textReplace u2 "C:\\raylib\\raylib\\src" cfg.raylib.srcPath
    let sln := textReplace (tread [tmpl, "projects", "VS2022", "project_name.sln"])
      "project_name" internal
    [FsAction.mkdir [out, repo, "projects", "VS2022", "raylib"],
     FsAction.mkdir [out, repo, "projects", "VS2022", internal],
     FsAction.write [out, repo, "projects", "VS2022", "raylib", "raylib.vcxproj"] rl,
     FsAction.write [out, repo, "projects", "VS2022", internal, internal ++ ".vcxproj"] u3,
     FsAction.write [out, repo, "projects", "VS2022", internal ++ ".sln"] sln]
  else []

/-- Step: GitHub Actions workflows, copied unconditionally and unmodified
(`LoadFileText` + `SaveFileText` of each of the four templates). -/
def workflowActs (cfg : RpcProjectConfig) (tmpl : String)
    (tread : List String → String) : List FsAction :=
  let out := cfg.Project.generationOutPath
  let repo := resolvedRepoName cfg
  [FsAction.mkdir [out, repo, ".github", "workflows"],
   FsAction.write [out, repo, ".github", "workflows", "windows.yml"]
     (tread [tmpl, ".github", "workflows", "windows.yml"]),
   FsAction.write [out, repo, ".github", "workflows", "linux.yml"]
     (tread [tmpl, ".github", "workflows", "linux.yml"]),
   FsAction.write [out, repo, ".github", "workflows", "macos.yml"]
     (tread [tmpl, ".github", "workflows", "macos.yml"]),
   FsAction.write [out, repo, ".github", "workflows", "webassembly.yml"]
     (tread [tmpl, ".github", "workflows", "webassembly.yml"])]

/-- Step: platform resource files (`.rc`, icons, `Info.plist`,
`minshell.html`), each through its own ordered replacement chain. -/
def resourceActs (cfg : RpcProjectConfig) (tmpl : String)
    (tread : List String → String) : List FsAction :=
  let out := cfg.Project.generationOutPath
  let repo := resolvedRepoName cfg
  let internal := cfg.Project.internalName
  let rc0 := tread [tmpl, "src", "project_name.rc"]
  let rc1 := textReplace rc0 "CommercialName" cfg.Project.commercialName
  let rc2 := textReplace rc1 "project_name" internal
  let rc3 := textReplace rc2 "ProjectDescription" cfg.Project.description
  let rc4 := textReplace rc3 "ProjectDeveloper" cfg.Project.developerName
  let rc := textReplace rc4 "ProjectYear" (toString cfg.Project.year)
  let pl0 := tread [tmpl, "src", "Info.plist"]
  let pl1 := textReplace pl0 "CommercialName" cfg.Project.commercialName
  let pl2 := textReplace pl1 "project_name" internal
  let pl3 := textReplace pl2 "ProjectDescription" cfg.Project.description
  let pl4 := textReplace pl3 "ProjectDeveloper" cfg.Project.developerName
  let pl5 := textReplace pl4 "project_developer" (textToLower cfg.Project.developerName)
  let plist := textReplace pl5 "ProjectYear" (toString cfg.Project.year)
  let sh0 := tread [tmpl, "src", "minshell.html"]
  let sh1 := textReplace sh0 "CommercialName" cfg.Project.commercialName
  let sh2 := textReplace sh1 "project_name" internal
  let sh3 := textReplace sh2 "ProjectDescription" cfg.Project.description
  let sh4 := textReplace sh3 "ProjectDeveloper" cfg.Project.developerName
  let sh5 := textReplace sh4 "project_developer" (textToLower cfg.Project.developerName)
  let shell := textReplace sh5 "ProjectDeveloperUrl" (textToLower cfg.Project.developerUrl)
  [FsAction.write [out, repo, "src", internal ++ ".rc"] rc,
   FsAction.copy [tmpl, "src", "project_name.ico"] [out, repo, "src", internal ++ ".ico"],
   FsAction.copy [tmpl, "src", "project_name.icns"] [out, repo, "src", internal ++ ".icns"],
   FsAction.write [out, repo, "src", "Info.plist"] plist,
   FsAction.write [out, repo, "src", "minshell.html"] shell]

/-- Step: `README.md`, `LICENSE` (substituted) and `CONVENTIONS.md`,
`.gitignore` (copied unmodified). -/
def docActs (cfg : RpcProjectConfig) (tmpl : String)
    (tread : List String → String) : List FsAction :=
  let out := cfg.Project.generationOutPath
  let repo := resolvedRepoName cfg
  let rm0 := tread [tmpl, "README.md"]
  let rm1 := textReplace rm0 "CommercialName" cfg.Project.commercialName
  let rm2 := textReplace rm1 "project_name" cfg.Project.internalName
  let rm3 := textReplace rm2 "ProjectDescription" cfg.Project.description
  let rm4 := textReplace rm3 "ProjectDeveloper" cfg.Project.developerName
  let readme := textReplace rm4 "ProjectYear" (toString cfg.Project.year)
  let license := textReplace (textReplace (tread [tmpl, "LICENSE"])
    "ProjectDeveloper" cfg.Project.developerName)
    "ProjectYear" (toString cfg.Project.year)
  [FsAction.write [out, repo, "README.md"] readme,
   FsAction.write [out, repo, "LICENSE"] license,
   FsAction.copy [tmpl, "CONVENTIONS.md"] [out, repo, "CONVENTIONS.md"],
   FsAction.copy [tmpl, ".gitignore"] [out, repo, ".gitignore"]]

/-- The complete effect trace of a successful `SetupProject` run, steps in
program order. -/
def setupProjectActions (cfg : RpcProjectConfig) (tmpl : String)
    (tread : List String → String) : List FsAction :=
  srcCopyActs cfg tmpl ++ rpcFileActs cfg tmpl tread ++
  scriptActs cfg tmpl tread ++ makefileActs cfg tmpl tread ++
  vscodeActs cfg tmpl tread ++ vs2022Acts cfg tmpl tread ++
  workflowActs cfg tmpl tread ++ resourceActs cfg tmpl tread ++
  docActs cfg tmpl tread

/-- Model of `SetupProject`: the guard at the head of the function logs a warning and
returns before producing any effect when the template root, its `src/` or
`projects/` subdirectory, or the `project_name.rpc` seed file is missing;
otherwise the full action trace runs. -/
def setupProject (tc : TemplateCheck) (cfg : RpcProjectConfig) (tmpl : String)
    (tread : List String → String) : Option (List FsAction) :=
  if tc.rootExists && tc.srcExists && tc.projectsExists && tc.rpcSeedExists then
    some (setupProjectActions cfg tmpl tread)
  else
    none

/-! ## Spec-side definitions

These follow the specification's wording (clean segment splitting, suffix
tests), to be compared against the scanner-based behaviour embedded above. -/

/-- Spec wording: the first underscore-delimited segment of a key. -/
def firstSegment (k : List Char) : List Char :=
  k.takeWhile (fun c => c != '_')

/-- Spec wording: the second underscore-delimited segment of a key (text
between the first and the second underscore). -/
def secondSegment (k : List Char) : List Char :=
  (k.drop ((firstSegment k).length + 1)).takeWhile (fun c => c != '_')

/-- Spec wording for platform inference: the second segment, mapped via the
fixed table, but only when the first segment is `PLATFORM`; `Any` otherwise
and for unrecognized segments. -/
def specPlatform (k : List Char) : Nat :=
  if firstSegment k = "PLATFORM".toList then platTable (secondSegment k)
  else RPC_PLATFORM_ANY

/-- Spec wording of the type-inference rule (claim order): `_FLAG` substring
anywhere → Bool; suffix `_FILES`/`_FILE` → TextFile; suffix `_PATH` →
TextPath; otherwise IntValue when the raw value was unquoted, Text when it
was quoted. -/
def specTypeRule (k : List Char) (wasQuoted : Bool) : Nat :=
  if "_FLAG".toList <:+: k then RPC_TYPE_BOOL
  else if "_FILES".toList <:+ k ∨ "_FILE".toList <:+ k then RPC_TYPE_TEXT_FILE
  else if "_PATH".toList <:+ k then RPC_TYPE_TEXT_PATH
  else if !wasQuoted then RPC_TYPE_VALUE
  else RPC_TYPE_TEXT

/-! ## Scanner lemmas -/

theorem cByteAt_nil (i : Nat) : cByteAt [] i = nulChar := by
  simp [cByteAt]

theorem cByteAt_cons_zero (a : Char) (s : List Char) : cByteAt (a :: s) 0 = a := rfl

theorem cByteAt_cons_succ (a : Char) (s : List Char) (i : Nat) :
    cByteAt (a :: s) (i + 1) = cByteAt s i := rfl

theorem cByteAt_mem_or_nul (s : List Char) (i : Nat) :
    cByteAt s i ∈ s ∨ cByteAt s i = nulChar := by
  unfold cByteAt
  rcases lt_or_le i s.length with h | h
  · left
    rw [s.getD_eq_getElem nulChar h]
    exact s.getElem_mem h
  · right
    exact s.getD_eq_default nulChar h

theorem scanFrom_nil (off fuel : Nat) : scanFrom [] off fuel = fuel := by
  induction fuel generalizing off with
  | zero => rfl
  | succ fuel ih =>
    have hne : cByteAt [] off ≠ '_' := by rw [cByteAt_nil]; decide
    simp [scanFrom, hne, ih]

theorem scanFrom_cons (a : Char) (s : List Char) (off fuel : Nat) :
    scanFrom (a :: s) (off + 1) fuel = scanFrom s off fuel := by
  induction fuel generalizing off with
  | zero => rfl
  | succ fuel ih =>
    simp only [scanFrom, cByteAt_cons_succ, ih]

theorem scanFrom_append (pre s : List Char) (off fuel : Nat) :
    scanFrom (pre ++ s) (pre.length + off) fuel = scanFrom s off fuel := by
  induction pre generalizing off with
  | nil => simp
  | cons a pre ih =>
    have harith : (a :: pre).length + off = (pre.length + off) + 1 := by
      simp [List.length_cons]; omega
    rw [List.cons_append, harith, scanFrom_cons, ih]

theorem scanFrom_le (s : List Char) (off fuel : Nat) : scanFrom s off fuel ≤ fuel := by
  induction fuel generalizing off with
  | zero => exact Nat.le_refl 0
  | succ fuel ih =>
    unfold scanFrom
    split
    · exact Nat.zero_le _
    · exact Nat.succ_le_succ (ih (off + 1))

theorem scanFrom_succ (s : List Char) (off fuel : Nat) :
    scanFrom s off (fuel + 1) =
      if cByteAt s off = '_' then 0 else scanFrom s (off + 1) fuel + 1 := rfl

theorem byteAt_scanFrom (s : List Char) (off fuel : Nat)
    (h : scanFrom s off fuel < fuel) :
    cByteAt s (off + scanFrom s off fuel) = '_' := by
  induction fuel generalizing off with
  | zero => omega
  | succ fuel ih =>
    by_cases hb : cByteAt s off = '_'
    · simp [scanFrom_succ, hb]
    · rw [scanFrom_succ, if_neg hb] at h ⊢
      have h' : scanFrom s (off + 1) fuel < fuel := by omega
      have hrec := ih (off + 1) h'
      have harith : off + (scanFrom s (off + 1) fuel + 1) =
          (off + 1) + scanFrom s (off + 1) fuel := by omega
      rw [harith]
      exact hrec

theorem scanFrom_not_underscore (s : List Char) (off fuel i : Nat)
    (h : i < scanFrom s off fuel) : cByteAt s (off + i) ≠ '_' := by
  induction fuel generalizing off i with
  | zero => simp [scanFrom] at h
  | succ fuel ih =>
    unfold scanFrom at h
    split at h
    · omega
    · next hne =>
      match i with
      | 0 => simpa using hne
      | i + 1 =>
        have harith : off + (i + 1) = (off + 1) + i := by omega
        rw [harith]
        exact ih (off + 1) i (by omega)

theorem scanFrom_lt_iff (s : List Char) (off fuel n : Nat) (hn : n ≤ fuel) :
    scanFrom s off fuel < n ↔ ∃ i, i < n ∧ cByteAt s (off + i) = '_' := by
  constructor
  · intro h
    exact ⟨scanFrom s off fuel, h, byteAt_scanFrom s off fuel (by omega)⟩
  · rintro ⟨i, hi, hbyte⟩
    by_contra hlt
    exact scanFrom_not_underscore s off fuel i (by omega) hbyte

theorem scanFrom_spec (s : List Char) (fuel : Nat) (h : s.length ≤ fuel) :
    ('_' ∈ s ∧ scanFrom s 0 fuel = (s.takeWhile (fun c => c != '_')).length) ∨
    ('_' ∉ s ∧ scanFrom s 0 fuel = fuel) := by
  induction s generalizing fuel with
  | nil => exact Or.inr ⟨by simp, scanFrom_nil 0 fuel⟩
  | cons a t ih =>
    match fuel with
    | 0 => simp at h
    | fuel + 1 =>
      have hunfold : scanFrom (a :: t) 0 (fuel + 1) =
          if a = '_' then 0 else scanFrom t 0 fuel + 1 := by
        rw [scanFrom_succ, cByteAt_cons_zero, scanFrom_cons]
      by_cases ha : a = '_'
      · refine Or.inl ⟨by simp [ha], ?_⟩
        rw [hunfold, if_pos ha]
        simp [List.takeWhile_cons, ha]
      · have ht : t.length ≤ fuel := by simpa using h
        have hpred : (a != '_') = true := by simpa using ha
        rcases ih fuel ht with ⟨hmem, heq⟩ | ⟨hmem, heq⟩
        · refine Or.inl ⟨List.mem_cons_of_mem a hmem, ?_⟩
          rw [hunfold, if_neg ha, heq]
          simp [List.takeWhile_cons, hpred]
        · refine Or.inr ⟨?_, ?_⟩
          · intro hmem'
            rcases List.mem_cons.mp hmem' with h1 | h2
            · exact ha h1.symm
            · exact hmem h2
          · rw [hunfold, if_neg ha, heq]

theorem take_takeWhile_length {α : Type} (l : List α) (p : α → Bool) :
    l.take ((l.takeWhile p).length) = l.takeWhile p := by
  induction l with
  | nil => rfl
  | cons a t ih =>
    by_cases hp : p a
    · simp [List.takeWhile_cons, hp, ih]
    · simp [List.takeWhile_cons, hp]

theorem takeWhile_eq_self_of {α : Type} (l : List α) (p : α → Bool)
    (h : ∀ a ∈ l, p a = true) : l.takeWhile p = l := by
  induction l with
  | nil => rfl
  | cons a t ih =>
    have ha := h a (List.mem_cons_self a t)
    simp [List.takeWhile_cons, ha, ih fun b hb => h b (List.mem_cons_of_mem a hb)]

theorem take_scanFrom (s : List Char) (fuel : Nat) (h : s.length ≤ fuel) :
    s.take (scanFrom s 0 fuel) = s.takeWhile (fun c => c != '_') := by
  rcases scanFrom_spec s fuel h with ⟨_, heq⟩ | ⟨hmem, heq⟩
  · rw [heq]
    exact take_takeWhile_length s _
  · rw [heq, List.take_of_length_le h]
    exact (takeWhile_eq_self_of s _ fun a ha => by
      simp only [bne_iff_ne, ne_eq, decide_eq_true_eq]
      rintro rfl
      exact hmem ha).symm

theorem cStrFrom_eq_take (s : List Char) (hNoNul : nulChar ∉ s) (off n : Nat) :
    cStrFrom s off n = (s.drop off).take n := by
  induction n generalizing off with
  | zero => rfl
  | succ n ih =>
    unfold cStrFrom
    rcases lt_or_le off s.length with hlt | hle
    · have hbyte : cByteAt s off = s[off] := s.getD_eq_getElem nulChar hlt
      have hne : cByteAt s off ≠ nulChar := by
        rw [hbyte]
        intro hcontr
        exact hNoNul (hcontr ▸ s.getElem_mem hlt)
      simp only [hne, if_false]
      rw [ih (off + 1), hbyte, List.drop_eq_getElem_cons hlt]
      rfl
    · have hbyte : cByteAt s off = nulChar := s.getD_eq_default nulChar hle
      simp only [hbyte, if_true]
      rw [List.drop_eq_nil_of_le hle]
      rfl

theorem dropWhile_underscore_cons (k : List Char) (h : '_' ∈ k) :
    ∃ rest, k.dropWhile (fun c => c != '_') = '_' :: rest := by
  induction k with
  | nil => simp at h
  | cons a t ih =>
    by_cases ha : a = '_'
    · subst ha
      exact ⟨t, by simp [List.dropWhile_cons]⟩
    · have hpred : (a != '_') = true := by simpa using ha
      have ht : '_' ∈ t := by
        rcases List.mem_cons.mp h with hcontr | ht
        · exact absurd hcontr.symm ha
        · exact ht
      obtain ⟨rest, hrest⟩ := ih ht
      exact ⟨rest, by simp [List.dropWhile_cons, hpred, hrest]⟩

theorem underscore_split (k : List Char) (h : '_' ∈ k) :
    ∃ rest, k = k.takeWhile (fun c => c != '_') ++ '_' :: rest := by
  obtain ⟨rest, hrest⟩ := dropWhile_underscore_cons k h
  refine ⟨rest, ?_⟩
  conv_lhs => rw [← List.takeWhile_append_dropWhile (fun c => c != '_') k, hrest]

/-- The category string read back from the scanner equals the clean first
segment (keys contain no NUL byte and fit in the scan cap). -/
theorem categoryStr_eq (k : List Char) (hNoNul : nulChar ∉ k) (hLen : k.length ≤ 128) :
    cStrFrom k 0 (scanFrom k 0 128) = firstSegment k := by
  rw [cStrFrom_eq_take k hNoNul, List.drop_zero, take_scanFrom k 128 hLen]
  rfl

/-- The scanner-based platform inference of `LoadProjectConfigRaw` agrees
with the clean second-segment reading of the spec on every NUL-free key that
fits the 64-byte key buffer. -/
theorem parseCatPlat_platform (k : List Char) (hNoNul : nulChar ∉ k)
    (hLen : k.length < 64) : (parseCatPlat k).2.1 = specPlatform k := by
  have hLen128 : k.length ≤ 128 := by omega
  have hcs : cStrFrom k 0 (scanFrom k 0 128) = firstSegment k :=
    categoryStr_eq k hNoNul hLen128
  have hP : ∀ s : List Char, cStrFrom k 0 (scanFrom k 0 128) = s →
      s ≠ "PLATFORM".toList → specPlatform k = RPC_PLATFORM_ANY := by
    intro s hs hne
    unfold specPlatform
    rw [if_neg (fun hcontr => hne ((hcs.symm.trans hs).symm.trans hcontr))]
  unfold parseCatPlat
  by_cases e1 : cStrFrom k 0 (scanFrom k 0 128) = "PROJECT".toList
  · rw [if_pos e1, hP _ e1 (by decide)]
  · rw [if_neg e1]
    by_cases e2 : cStrFrom k 0 (scanFrom k 0 128) = "BUILD".toList
    · rw [if_pos e2, hP _ e2 (by decide)]
    · rw [if_neg e2]
      by_cases e3 : cStrFrom k 0 (scanFrom k 0 128) = "PLATFORM".toList
      · rw [if_pos e3]
        have hfs : firstSegment k = "PLATFORM".toList := hcs.symm.trans e3
        show platTable _ = specPlatform k
        unfold specPlatform
        rw [if_pos hfs]
        congr 1
        by_cases hu : '_' ∈ k
        · rcases scanFrom_spec k 128 hLen128 with ⟨-, hcl⟩ | ⟨hnm, -⟩
          swap
          · exact absurd hu hnm
          have hcl8 : scanFrom k 0 128 = 8 := by
            rw [hcl, show List.takeWhile (fun c => c != '_') k = firstSegment k from rfl,
              hfs]
            decide
          obtain ⟨rest, hk⟩ := underscore_split k hu
          have hk' : k = "PLATFORM".toList ++ '_' :: rest := by
            rw [← hfs]; exact hk
          have hk9 : k = ("PLATFORM".toList ++ ['_']) ++ rest := by
            rw [hk']; simp
          have hrestlen : rest.length ≤ 128 := by
            have hklen := congrArg List.length hk'
            simp at hklen
            omega
          have hscan : scanFrom k 9 128 = scanFrom rest 0 128 := by
            conv_lhs => rw [hk9]
            have happ := scanFrom_append ("PLATFORM".toList ++ ['_']) rest 0 128
            simpa using happ
          have hdrop : k.drop 9 = rest := by
            conv_lhs => rw [hk9]
            have hpre : ("PLATFORM".toList ++ ['_']).length = 9 := by decide
            rw [← hpre]
            exact List.drop_left _ _
          rw [hcl8, show (8 : Nat) + 1 = 9 from rfl, hscan,
            cStrFrom_eq_take k hNoNul 9 _, hdrop, take_scanFrom rest 128 hrestlen]
          unfold secondSegment
          rw [show (firstSegment k).length = 8 by rw [hfs]; decide,
            show (8 : Nat) + 1 = 9 from rfl, hdrop]
        · rcases scanFrom_spec k 128 hLen128 with ⟨hm, -⟩ | ⟨-, hcl⟩
          · exact absurd hm hu
          have hfs_self : firstSegment k = k :=
            takeWhile_eq_self_of k _ (fun a ha => by
              simp only [bne_iff_ne, ne_eq, decide_eq_true_eq]
              rintro rfl
              exact hu ha)
          have hkP : k = "PLATFORM".toList := hfs_self.symm.trans hfs
          rw [hcl, cStrFrom_eq_take k hNoNul]
          have hdrop : k.drop (128 + 1) = [] := by rw [hkP]; rfl
          rw [hdrop, List.take_nil]
          unfold secondSegment
          rw [show (firstSegment k).length = 8 by rw [hfs]; decide, hkP]
          rfl
      · rw [if_neg e3]
        by_cases e4 : cStrFrom k 0 (scanFrom k 0 128) = "DEPLOY".toList
        · rw [if_pos e4, hP _ e4 (by decide)]
        · rw [if_neg e4]
          by_cases e5 : cStrFrom k 0 (scanFrom k 0 128) = "IMAGERY".toList
          · rw [if_pos e5, hP _ e5 (by decide)]
          · rw [if_neg e5]
            by_cases e6 : cStrFrom k 0 (scanFrom k 0 128) = "RAYLIB".toList
            · rw [if_pos e6, hP _ e6 (by decide)]
            · rw [if_neg e6]
              unfold specPlatform
              rw [if_neg (fun hcontr => e3 (hcs.trans hcontr))]

/-! ## Concrete inputs used by the claim theorems -/

/-- A configuration whose only non-default field is the WebGL2 flag. -/
def cfgWebGL : RpcProjectConfig := { Platform := { HTML5 := { useWebGL2 := true } } }

/-- A store holding just the entry keyed for the WebGL2 flag. -/
def storeWebGL : List RpcPropertyEntry := [{ key := "PLATFORM_HTML5_FLAG_USE_WEBGL2" }]

/-- Custom-sources configuration: template 2 with `a.c` and `b.c`, and the
Makefile build system requested. -/
def cfg5 : RpcProjectConfig :=
  { Project := { internalName := "game", repoName := "demo", generationOutPath := "o",
                 sourceFilePaths := ["a.c", "b.c"], selectedTemplate := 2 },
    Build := { requestedBuildSystems := [false, true, false, false, false, false] } }

/-- Basic-generation configuration of the scenario: `cool_project`, blank
repository name, template 0, build systems `[false, true, false, true]`. -/
def cfg6 : RpcProjectConfig :=
  { Project := { internalName := "cool_project", repoName := "",
                 generationOutPath := "out", selectedTemplate := 0 },
    Build := { requestedBuildSystems := [false, true, false, true, false, false] } }

/-- A configuration whose repository name differs from its internal name. -/
def cfg8 : RpcProjectConfig :=
  { Project := { internalName := "game", repoName := "myrepo", generationOutPath := "o" } }

/-- Script-flag configuration with distinct repository and internal names. -/
def cfg10 : RpcProjectConfig :=
  { Project := { internalName := "game", repoName := "other", generationOutPath := "o" },
    Build := { requestedBuildSystems := [true, false, false, false, false, false] } }

/-! ## Claim theorems -/

set_option maxRecDepth 10000 in
/-- Claim C1 (round-trip law) — the code violates it: syncing a schema with
`Platform.HTML5.useWebGL2 = true` into a store that carries the
`PLATFORM_HTML5_FLAG_USE_WEBGL2` entry does record value 1 in the store, yet
parsing the store back leaves the field at its default `false`, because the
corresponding `SyncProjectConfig` line uses a C comma operator instead of an
assignment.  The same slip affects `DEPLOY_FLAG_INCUDE_README`. -/
theorem C1_roundtrip_webgl2_lost :
    (syncProjectConfigRaw cfgWebGL storeWebGL).map RpcPropertyEntry.value = [1] ∧
    (syncProjectConfig (syncProjectConfigRaw cfgWebGL storeWebGL) {}).Platform.HTML5.useWebGL2
      = false ∧
    cfgWebGL.Platform.HTML5.useWebGL2 = true := by
  refine ⟨?_, ?_, ?_⟩ <;> decide

/-- Claim C2 (type inference) — the code violates it: for the unquoted entry
`PLATFORM_HTML5_HEAP_MEMORY_SIZE` the claim's rule yields IntValue, but the
source tests `if (TextFindIndex(key, "_FLAG"))`, which is also taken on the
not-found result `-1`, so the entry is classified Bool. -/
theorem C2_unquoted_type_misclassified :
    (parseEntry { key := "PLATFORM_HTML5_HEAP_MEMORY_SIZE", text := "128",
                  isText := false }).type = RPC_TYPE_BOOL ∧
    specTypeRule "PLATFORM_HTML5_HEAP_MEMORY_SIZE".toList false = RPC_TYPE_VALUE ∧
    RPC_TYPE_BOOL ≠ RPC_TYPE_VALUE := by
  decide

set_option maxRecDepth 10000 in
/-- Claim C3, counterexample: on the underscore-free key `FOO` the category
scanning loop of `LoadProjectConfigRaw` reads up to byte index 127, far past
the 64-byte key buffer, refuting the claim that the scan stays within the
entry's key buffer for every key. -/
theorem C3_scan_exceeds_buffer_counterexample :
    categoryScanMaxAccess "FOO".toList = 127 ∧
    ¬ categoryScanMaxAccess "FOO".toList < keyBufferSize := by
  decide

set_option maxRecDepth 10000 in
/-- Claim C3, amended: parsing is total — every store parses with one output
entry per input entry and no rejection path — but the category and platform
scanning loops are bounded only by their 128-iteration caps, not by the key
buffer: the category scan touches byte indices up to 127 and the platform
scan up to `categoryLen + 128`, and both caps are reached past the 64-byte
key buffer — the category scan reads index 127 on the underscore-free key
`FOO`, and the platform scan reads index 136 on `PLATFORM_FOO`, whose
platform segment has no closing underscore. -/
theorem C3_parse_total_scan_bound :
    (∀ store : List RiniValue, (loadProjectConfigRaw store).length = store.length) ∧
    (∀ key : List Char, categoryScanMaxAccess key ≤ 127 ∧
      platformScanMaxAccess key ≤ scanFrom key 0 128 + 128) ∧
    categoryScanMaxAccess "FOO".toList = 127 ∧
    ¬ categoryScanMaxAccess "FOO".toList < keyBufferSize ∧
    platformScanMaxAccess "PLATFORM_FOO".toList = 136 ∧
    ¬ platformScanMaxAccess "PLATFORM_FOO".toList < keyBufferSize := by
  refine ⟨fun store => List.length_map store parseEntry,
    fun key => ⟨Nat.min_le_right _ _, ?_⟩, by decide, by decide, by decide, by decide⟩
  unfold platformScanMaxAccess
  omega

/-- Claim C4 (missing-template abort): when the template root, its `src/` or
`projects/` subdirectory, or the `project_name.rpc` seed is missing,
`SetupProject` returns after logging a warning and produces no filesystem
effect at all — in particular nothing under `<out>/<repoName>/`. -/
theorem C4_missing_template_aborts (tc : TemplateCheck) (cfg : RpcProjectConfig)
    (tmpl : String) (tread : List String → String)
    (h : tc.rootExists = false ∨ tc.srcExists = false ∨ tc.projectsExists = false ∨
      tc.rpcSeedExists = false) :
    setupProject tc cfg tmpl tread = none := by
  unfold setupProject
  rcases h with h | h | h | h <;> simp [h]

/-- Witness for C4: a template root whose `projects/` subdirectory is missing
aborts generation. -/
theorem C4_missing_template_aborts_witness :
    setupProject { projectsExists := false } {} "tmpl" (fun _ => "") = none :=
  C4_missing_template_aborts { projectsExists := false } {} "tmpl" (fun _ => "")
    (Or.inr (Or.inr (Or.inl rfl)))

/-- Claim C5 (custom sources) — the code violates it: with template 2 and
sources `a.c b.c`, the space-joined replacement `"SRC = a.c b.c"` is computed
into `fileTextUpdated[0]`, but the chain that is saved restarts from the
original file text (`fileTextUpdated[1] = TextReplace(fileText, ...)`), so
the emitted Makefile carries `"SRC = game.c"` — the bare `project_name`
substitution — and not the claimed source list. -/
theorem C5_makefile_sources_replacement_lost :
    sourcesReplacedText cfg5 "SRC = project_name.c" = "SRC = a.c b.c" ∧
    (setupProjectActions cfg5 "T" (fun _ => "SRC = project_name.c")).filter
        (fun a => a.outPath == ["o", "demo", "src", "Makefile"]) =
      [FsAction.write ["o", "demo", "src", "Makefile"] "SRC = game.c"] ∧
    ("SRC = game.c" : String) ≠ "SRC = a.c b.c" := by
  refine ⟨by decide, by decide, by decide⟩

/-- Claim C6 (basic generation): for `cool_project`, template 0, build
systems `[false, true, false, true]`, generation copies the canned basic
source to `cool_project/src/cool_project.c`, writes
`cool_project/src/Makefile` with every `project_name` occurrence replaced by
`cool_project` (and the raylib source path substituted), writes
`cool_project/projects/VS2022/cool_project/cool_project.vcxproj`, and
produces nothing under a `projects/VSCode` directory. -/
theorem C6_basic_generation_scenario (tmpl : String) (tread : List String → String) :
    (setupProjectActions cfg6 tmpl tread).filter
        (fun a => a.outPath == ["out", "cool_project", "src", "cool_project.c"]) =
      [FsAction.copy [tmpl, "src", "project_name.c"]
        ["out", "cool_project", "src", "cool_project.c"]] ∧
    (setupProjectActions cfg6 tmpl tread).filter
        (fun a => a.outPath == ["out", "cool_project", "src", "Makefile"]) =
      [FsAction.write ["out", "cool_project", "src", "Makefile"]
        (textReplace (textReplace (tread [tmpl, "src", "Makefile"])
          "project_name" "cool_project") "C:/raylib/raylib/src" "")] ∧
    ((setupProjectActions cfg6 tmpl tread).filter
        (fun a => a.outPath ==
          ["out", "cool_project", "projects", "VS2022", "cool_project",
            "cool_project.vcxproj"])).length = 1 ∧
    (setupProjectActions cfg6 tmpl tread).all
        (fun a => !(a.outPath.contains "VSCode")) = true :=
  ⟨rfl, rfl, rfl, rfl⟩

/-- Claim C7 (platform inference): for every NUL-free key fitting the 64-byte
key buffer, the platform parsed by `LoadProjectConfigRaw` equals the spec's
reading — the second underscore-delimited segment mapped through the fixed
platform table when the inferred category is Platform (defaulting to Any on
unrecognized segments), and Any for every other category. -/
theorem C7_platform_inference (v : RiniValue) (hNoNul : nulChar ∉ v.key.toList)
    (hLen : v.key.toList.length < 64) :
    (parseEntry v).platform = specPlatform v.key.toList := by
  show (parseCatPlat v.key.toList).2.1 = specPlatform v.key.toList
  exact parseCatPlat_platform v.key.toList hNoNul hLen

/-- Witness for C7 at the scenario key `PLATFORM_ANDROID_SDK_PATH`. -/
theorem C7_platform_inference_witness :
    (parseEntry { key := "PLATFORM_ANDROID_SDK_PATH", text := "p", isText := true }).platform
        = specPlatform "PLATFORM_ANDROID_SDK_PATH".toList ∧
    specPlatform "PLATFORM_ANDROID_SDK_PATH".toList = RPC_PLATFORM_ANDROID :=
  ⟨C7_platform_inference { key := "PLATFORM_ANDROID_SDK_PATH", text := "p", isText := true }
    (by decide) (by decide), by decide⟩

/-! ## Output-layout lemmas, one per `SetupProject` step -/

theorem mem_srcCopyActs {cfg : RpcProjectConfig} {tmpl : String} {a : FsAction}
    (ha : a ∈ srcCopyActs cfg tmpl) (hfile : a.isFileOutput = true) :
    [cfg.Project.generationOutPath, resolvedRepoName cfg] <+: a.outPath := by
  unfold srcCopyActs at ha
  rcases List.mem_cons.mp ha with rfl | ha
  · simp [FsAction.isFileOutput] at hfile
  · split_ifs at ha
    · simp only [List.mem_singleton] at ha
      subst ha
      exact ⟨_, rfl⟩
    · simp only [List.mem_cons, List.not_mem_nil, or_false] at ha
      rcases ha with rfl | rfl | rfl | rfl | rfl | rfl | rfl <;> exact ⟨_, rfl⟩
    · simp only [List.mem_map] at ha
      obtain ⟨p, -, rfl⟩ := ha
      exact ⟨_, rfl⟩
    · simp at ha

theorem mem_rpcFileActs {cfg : RpcProjectConfig} {tmpl : String}
    {tread : List String → String} {a : FsAction} (ha : a ∈ rpcFileActs cfg tmpl tread) :
    a.outPath = [cfg.Project.generationOutPath, cfg.Project.internalName ++ ".rpc"] := by
  unfold rpcFileActs at ha
  simp only [List.mem_singleton] at ha
  subst ha
  rfl

theorem mem_scriptActs {cfg : RpcProjectConfig} {tmpl : String}
    {tread : List String → String} {a : FsAction} (ha : a ∈ scriptActs cfg tmpl tread)
    (hfile : a.isFileOutput = true) :
    [cfg.Project.generationOutPath, resolvedRepoName cfg] <+: a.outPath := by
  unfold scriptActs at ha
  split_ifs at ha
  · simp only [List.mem_cons, List.not_mem_nil, or_false] at ha
    rcases ha with rfl | rfl
    · simp [FsAction.isFileOutput] at hfile
    · exact ⟨_, rfl⟩
  · simp at ha

theorem mem_makefileActs {cfg : RpcProjectConfig} {tmpl : String}
    {tread : List String → String} {a : FsAction} (ha : a ∈ makefileActs cfg tmpl tread) :
    [cfg.Project.generationOutPath, resolvedRepoName cfg] <+: a.outPath := by
  unfold makefileActs at ha
  split_ifs at ha
  · simp only [List.mem_singleton] at ha
    subst ha
    exact ⟨_, rfl⟩
  · simp at ha

theorem mem_vscodeActs {cfg : RpcProjectConfig} {tmpl : String}
    {tread : List String → String} {a : FsAction} (ha : a ∈ vscodeActs cfg tmpl tread)
    (hfile : a.isFileOutput = true) :
    [cfg.Project.generationOutPath, resolvedRepoName cfg] <+: a.outPath := by
  unfold vscodeActs at ha
  split_ifs at ha
  · simp only [List.mem_cons, List.not_mem_nil, or_false] at ha
    rcases ha with rfl | rfl | rfl | rfl | rfl | rfl | rfl
    · simp [FsAction.isFileOutput] at hfile
    all_goals exact ⟨_, rfl⟩
  · simp at ha

theorem mem_vs2022Acts {cfg : RpcProjectConfig} {tmpl : String}
    {tread : List String → String} {a : FsAction} (ha : a ∈ vs2022Acts cfg tmpl tread)
    (hfile : a.isFileOutput = true) :
    [cfg.Project.generationOutPath, resolvedRepoName cfg] <+: a.outPath := by
  unfold vs2022Acts at ha
  split_ifs at ha
  · simp only [List.mem_cons, List.not_mem_nil, or_false] at ha
    rcases ha with rfl | rfl | rfl | rfl | rfl
    · simp [FsAction.isFileOutput] at hfile
    · simp [FsAction.isFileOutput] at hfile
    all_goals exact ⟨_, rfl⟩
  · simp at ha

theorem mem_workflowActs {cfg : RpcProjectConfig} {tmpl : String}
    {tread : List String → String} {a : FsAction} (ha : a ∈ workflowActs cfg tmpl tread)
    (hfile : a.isFileOutput = true) :
    [cfg.Project.generationOutPath, resolvedRepoName cfg] <+: a.outPath := by
  unfold workflowActs at ha
  simp only [List.mem_cons, List.not_mem_nil, or_false] at ha
  rcases ha with rfl | rfl | rfl | rfl | rfl
  · simp [FsAction.isFileOutput] at hfile
  all_goals exact ⟨_, rfl⟩

theorem mem_resourceActs {cfg : RpcProjectConfig} {tmpl : String}
    {tread : List String → String} {a : FsAction} (ha : a ∈ resourceActs cfg tmpl tread) :
    [cfg.Project.generationOutPath, resolvedRepoName cfg] <+: a.outPath := by
  unfold resourceActs at ha
  simp only [List.mem_cons, List.not_mem_nil, or_false] at ha
  rcases ha with rfl | rfl | rfl | rfl | rfl <;> exact ⟨_, rfl⟩

theorem mem_docActs {cfg : RpcProjectConfig} {tmpl : String}
    {tread : List String → String} {a : FsAction} (ha : a ∈ docActs cfg tmpl tread) :
    [cfg.Project.generationOutPath, resolvedRepoName cfg] <+: a.outPath := by
  unfold docActs at ha
  simp only [List.mem_cons, List.not_mem_nil, or_false] at ha
  rcases ha with rfl | rfl | rfl | rfl <;> exact ⟨_, rfl⟩

set_option maxRecDepth 10000 in
/-- Claim C8, counterexample: with repository name `myrepo` and internal name
`game`, generation emits exactly one file outside the `<out>/myrepo/` tree —
the project definition, written to `<out>/game.rpc` instead of inside the
repository directory, refuting the claimed layout as stated. -/
theorem C8_rpc_outside_repo_counterexample :
    (setupProjectActions cfg8 "T" (fun _ => "")).filter
        (fun a => a.isFileOutput && !(List.isPrefixOf ["o", "myrepo"] a.outPath)) =
      [FsAction.write ["o", "game.rpc"] ""] := by
  decide

/-- Claim C8, amended: every file produced by a successful generation lies
inside the `<out>/<repoName>/` tree, with the single exception of the
`.rpc` project definition, which is written to `<out>/<internalName>.rpc`
beside (not inside) the repository directory. -/
theorem C8_output_layout_amended (cfg : RpcProjectConfig) (tmpl : String)
    (tread : List String → String) :
    ∀ a ∈ setupProjectActions cfg tmpl tread, a.isFileOutput = true →
      a.outPath ≠ [cfg.Project.generationOutPath, cfg.Project.internalName ++ ".rpc"] →
      [cfg.Project.generationOutPath, resolvedRepoName cfg] <+: a.outPath := by
  intro a ha hfile hne
  unfold setupProjectActions at ha
  rcases List.mem_append.mp ha with h8 | hdoc
  · rcases List.mem_append.mp h8 with h7 | hres
    · rcases List.mem_append.mp h7 with h6 | hwf
      · rcases List.mem_append.mp h6 with h5 | hvs
        · rcases List.mem_append.mp h5 with h4 | hvsc
          · rcases List.mem_append.mp h4 with h3 | hmk
            · rcases List.mem_append.mp h3 with h2 | hscript
              · rcases List.mem_append.mp h2 with hsrc | hrpc
                · exact mem_srcCopyActs hsrc hfile
                · exact absurd (mem_rpcFileActs hrpc) hne
              · exact mem_scriptActs hscript hfile
            · exact mem_makefileActs hmk
          · exact mem_vscodeActs hvsc hfile
        · exact mem_vs2022Acts hvs hfile
      · exact mem_workflowActs hwf hfile
    · exact mem_resourceActs hres
  · exact mem_docActs hdoc

set_option maxRecDepth 10000 in
/-- Witness for the amended C8 at a concrete configuration and action. -/
theorem C8_output_layout_amended_witness :
    [("o" : String), "myrepo"] <+: ["o", "myrepo", "README.md"] :=
  C8_output_layout_amended cfg8 "T" (fun _ => "")
    (FsAction.write ["o", "myrepo", "README.md"] "") (by decide) (by decide) (by decide)

/-- Claim C9 (implicit, unrecognized category): an entry whose first
underscore-delimited segment is none of PROJECT, BUILD, PLATFORM, DEPLOY,
IMAGERY, RAYLIB is still parsed (no error or rejection path exists), and its
calloc-zero-initialized category field is left untouched, classifying the
entry as category Project. -/
theorem C9_unknown_category_defaults_project (v : RiniValue)
    (hNoNul : nulChar ∉ v.key.toList) (hLen : v.key.toList.length ≤ 128)
    (hcat : firstSegment v.key.toList ∉
      [("PROJECT".toList : List Char), "BUILD".toList, "PLATFORM".toList,
        "DEPLOY".toList, "IMAGERY".toList, "RAYLIB".toList]) :
    loadProjectConfigRaw [v] = [parseEntry v] ∧
    (parseEntry v).category = RPC_CAT_PROJECT := by
  refine ⟨rfl, ?_⟩
  show (parseCatPlat v.key.toList).1 = RPC_CAT_PROJECT
  have hcs : cStrFrom v.key.toList 0 (scanFrom v.key.toList 0 128)
      = firstSegment v.key.toList := categoryStr_eq v.key.toList hNoNul hLen
  have hni : ∀ s : List Char,
      s ∈ [("PROJECT".toList : List Char), "BUILD".toList, "PLATFORM".toList,
        "DEPLOY".toList, "IMAGERY".toList, "RAYLIB".toList] →
      cStrFrom v.key.toList 0 (scanFrom v.key.toList 0 128) ≠ s := by
    intro s hs hcontr
    exact hcat (by rw [hcs.symm.trans hcontr]; exact hs)
  unfold parseCatPlat
  rw [if_neg (hni _ (by simp)), if_neg (hni _ (by simp)), if_neg (hni _ (by simp)),
    if_neg (hni _ (by simp)), if_neg (hni _ (by simp)), if_neg (hni _ (by simp))]
  rfl

/-- Witness for C9 at the unrecognized key `CUSTOM_THING`. -/
theorem C9_unknown_category_defaults_project_witness :
    loadProjectConfigRaw [{ key := "CUSTOM_THING" }] =
      [parseEntry { key := "CUSTOM_THING" }] ∧
    (parseEntry { key := "CUSTOM_THING" }).category = RPC_CAT_PROJECT :=
  C9_unknown_category_defaults_project { key := "CUSTOM_THING" }
    (by decide) (by decide) (by decide)

/-- Claim C10 (implicit, Script step directory mismatch): with the Script
flag requested, the created directory is
`<out>/<internalName>/projects/scripts` while `build.bat` is written to
`<out>/<repoName>/projects/scripts/build.bat`; the two coincide exactly when
the (resolved) repository name equals the internal name, which is forced
when the repository name was blank and defaulted. -/
theorem C10_script_dir_mismatch (cfg : RpcProjectConfig) (tmpl : String)
    (tread : List String → String) (h : buildFlag cfg 0 = true) :
    FsAction.mkdir [cfg.Project.generationOutPath, cfg.Project.internalName,
        "projects", "scripts"] ∈ setupProjectActions cfg tmpl tread ∧
    FsAction.write [cfg.Project.generationOutPath, resolvedRepoName cfg,
        "projects", "scripts", "build.bat"]
      (textReplace (textReplace (textReplace
          (tread [tmpl, "projects", "scripts", "build.bat"])
          "project_name" cfg.Project.internalName)
          "ProjectDescription" cfg.Project.description)
          "C:\\raylib\\w64devkit\\bin" cfg.Platform.Windows.w64devkitPath)
      ∈ setupProjectActions cfg tmpl tread ∧
    ([cfg.Project.generationOutPath, cfg.Project.internalName, "projects", "scripts"] =
        [cfg.Project.generationOutPath, resolvedRepoName cfg, "projects", "scripts"] ↔
      cfg.Project.internalName = resolvedRepoName cfg) := by
  have hs : scriptActs cfg tmpl tread =
      [FsAction.mkdir [cfg.Project.generationOutPath, cfg.Project.internalName,
        "projects", "scripts"],
       FsAction.write [cfg.Project.generationOutPath, resolvedRepoName cfg,
        "projects", "scripts", "build.bat"]
        (textReplace (textReplace (textReplace
            (tread [tmpl, "projects", "scripts", "build.bat"])
            "project_name" cfg.Project.internalName)
            "ProjectDescription" cfg.Project.description)
            "C:\\raylib\\w64devkit\\bin" cfg.Platform.Windows.w64devkitPath)] := by
    unfold scriptActs
    rw [if_pos h]
  refine ⟨?_, ?_, by simp⟩
  · unfold setupProjectActions
    refine List.mem_append_left _ (List.mem_append_left _ (List.mem_append_left _
      (List.mem_append_left _ (List.mem_append_left _ (List.mem_append_left _
        (List.mem_append_right _ ?_))))))
    rw [hs]
    exact List.mem_cons_self _ _
  · unfold setupProjectActions
    refine List.mem_append_left _ (List.mem_append_left _ (List.mem_append_left _
      (List.mem_append_left _ (List.mem_append_left _ (List.mem_append_left _
        (List.mem_append_right _ ?_))))))
    rw [hs]
    exact List.mem_cons_of_mem _ (List.mem_cons_self _ _)

/-- Witness for C10 at a configuration whose repository name `other` differs
from the internal name `game`. -/
theorem C10_script_dir_mismatch_witness :
    FsAction.mkdir ["o", "game", "projects", "scripts"]
      ∈ setupProjectActions cfg10 "T" (fun _ => "") ∧
    FsAction.write ["o", "other", "projects", "scripts", "build.bat"] ""
      ∈ setupProjectActions cfg10 "T" (fun _ => "") ∧
    ((["o", "game", "projects", "scripts"] : List String) =
        ["o", "other", "projects", "scripts"] ↔ ("game" : String) = "other") :=
  C10_script_dir_mismatch cfg10 "T" (fun _ => "") rfl

end Rpc
